import Mathlib

/-!
Verification development for the flap-n-flow-game repository.

The game core lives in src/components/FlappyBird.tsx as a React component.
We embed its simulation semantics shallowly:

* JavaScript numbers are modelled as exact rationals (all the quantities the
  game manipulates stay rational for rational inputs).
* One firing of the setInterval game-loop callback is one `tick`.  The
  interval applies gravity and speed once per firing, so a tick corresponds
  to `dt = 1` of the spec's abstract fixed-step driver.
* Within one firing the callback first runs the bird updater and then,
  unconditionally, the pipes updater; `setGameOver(true)` inside the bird
  updater does not stop the pipes updater from running on that same firing
  (the effect's interval is only cleared after the re-render).  The `bird`
  value the pipes updater closes over is the bird as of the start of the
  firing (the effect re-registers whenever bird.x or bird.y changes), so
  scoring and collision tests use the pre-tick bird.
* `Math.random()` is modelled as an explicit rational parameter `r` supplied
  with each tick (the spec's injectable RandomGapSource).
* The obstacle id `Date.now()` is modelled as a monotone counter, as the
  spec's design notes direct; no claim depends on id values.
-/

namespace Flappy

attribute [local semireducible] Rat.mul Rat.inv Rat.add Rat.sub

/-- Constant BIRD_SIZE from the source. -/
def BIRD_SIZE : ℚ := 24

/-- Constant PIPE_WIDTH from the source. -/
def PIPE_WIDTH : ℚ := 60

/-- Constant PIPE_GAP from the source. -/
def PIPE_GAP : ℚ := 150

/-- Constant GRAVITY from the source (0.4). -/
def GRAVITY : ℚ := 2/5

/-- Constant JUMP_FORCE from the source. -/
def JUMP_FORCE : ℚ := -8

/-- Constant PIPE_SPEED from the source. -/
def PIPE_SPEED : ℚ := 2

/-- Constant GROUND_HEIGHT from the source. -/
def GROUND_HEIGHT : ℚ := 60

/-- State value gameHeight (fixed at 500 in the source). -/
def gameHeight : ℚ := 500

/-- State value gameWidth (fixed at 800 in the source). -/
def gameWidth : ℚ := 800

/-- The Bird record of the source. -/
structure Bird where
  x : ℚ
  y : ℚ
  velocity : ℚ
deriving DecidableEq

/-- The Pipe record of the source. -/
structure Pipe where
  x : ℚ
  topHeight : ℚ
  bottomHeight : ℚ
  id : ℕ
  passed : Bool
deriving DecidableEq

/-- The component state: bird, pipes, gameStarted, gameOver, score, plus the
monotone counter standing in for Date.now obstacle ids. -/
structure GState where
  bird : Bird
  pipes : List Pipe
  gameStarted : Bool
  gameOver : Bool
  score : ℕ
  nextId : ℕ
deriving DecidableEq

/-- The initial useState values of the component. -/
def initState : GState :=
  { bird := ⟨100, 250, 0⟩
    pipes := []
    gameStarted := false
    gameOver := false
    score := 0
    nextId := 0 }

/-- The jump callback: first trigger only starts the game; a trigger while
game over is a no-op; otherwise the velocity is overwritten with JUMP_FORCE. -/
def jump (s : GState) : GState :=
  if s.gameStarted = false then { s with gameStarted := true }
  else if s.gameOver = true then s
  else { s with bird := { s.bird with velocity := JUMP_FORCE } }

/-- The resetGame callback (nextId, standing in for wall-clock ids, keeps
counting monotonically). -/
def resetGame (s : GState) : GState :=
  { s with
    bird := ⟨100, 250, 0⟩, pipes := [], score := 0,
    gameOver := false, gameStarted := false }

/-- generatePipe from the source, with Math.random replaced by the explicit
sample r and Date.now by the counter value nid. -/
def generatePipe (r : ℚ) (x : ℚ) (nid : ℕ) : Pipe :=
  let minHeight : ℚ := 50
  let maxHeight : ℚ := gameHeight - GROUND_HEIGHT - PIPE_GAP - 50
  let topHeight := r * (maxHeight - minHeight) + minHeight
  let bottomHeight := gameHeight - GROUND_HEIGHT - topHeight - PIPE_GAP
  { x := x
    topHeight := topHeight
    bottomHeight := bottomHeight
    id := nid
    passed := false }

/-- The setBird updater of the game loop: integrate, then ground check
(returning the previous bird and a ground-collision flag), then ceiling
clamp.  Returns the new bird and whether setGameOver was called here. -/
def birdStep (b : Bird) : Bird × Bool :=
  let newY := b.y + b.velocity
  let newVelocity := b.velocity + GRAVITY
  if newY > gameHeight - GROUND_HEIGHT - BIRD_SIZE then (b, true)
  else if newY < 0 then ({ b with y := 0, velocity := 0 }, false)
  else ({ b with y := newY, velocity := newVelocity }, false)

/-- The map moving every pipe left by PIPE_SPEED. -/
def movePipes (ps : List Pipe) : List Pipe :=
  ps.map fun p => { p with x := p.x - PIPE_SPEED }

/-- The filter removing off-screen pipes (keeps x > -PIPE_WIDTH). -/
def prunePipes (ps : List Pipe) : List Pipe :=
  ps.filter fun p => decide (p.x > -PIPE_WIDTH)

/-- The spawn condition: the list is empty or its last element is left of
gameWidth - 300. -/
def needSpawn (ps : List Pipe) : Bool :=
  match ps.getLast? with
  | none => true
  | some p => decide (p.x < gameWidth - 300)

/-- Move, prune and (at most once) spawn: the first half of the setPipes
updater.  Returns the new list and the updated id counter. -/
def advancePipes (r : ℚ) (nid : ℕ) (ps : List Pipe) : List Pipe × ℕ :=
  let pruned := prunePipes (movePipes ps)
  if needSpawn pruned then (pruned ++ [generatePipe r gameWidth nid], nid + 1)
  else (pruned, nid)

/-- The scoring branch of the forEach, for one pipe against the (pre-tick)
bird: mark-and-count once the bird's left edge clears the pipe's right
edge, guarded by passed. -/
def scorePipe (b : Bird) (p : Pipe) : Pipe × ℕ :=
  if p.passed = false ∧ b.x > p.x + PIPE_WIDTH then
    ({ p with passed := true }, 1)
  else (p, 0)

/-- The collision branch of the forEach for one pipe against the (pre-tick)
bird: horizontal AABB overlap, then gap geometry test. -/
def pipeCollision (b : Bird) (p : Pipe) : Bool :=
  decide (b.x + BIRD_SIZE > p.x) && decide (b.x < p.x + PIPE_WIDTH) &&
    (decide (b.y < p.topHeight) ||
      decide (b.y + BIRD_SIZE > gameHeight - GROUND_HEIGHT - p.bottomHeight))

/-- The forEach of the setPipes updater: scoring then collision for each pipe
in order, against the pre-tick bird.  Returns the updated pipes, the score
delta, and whether any pipe collision called setGameOver. -/
def processPipes (b : Bird) : List Pipe → List Pipe × ℕ × Bool
  | [] => ([], 0, false)
  | p :: ps =>
    let sc := scorePipe b p
    let rest := processPipes b ps
    (sc.1 :: rest.1, sc.2 + rest.2.1, pipeCollision b p || rest.2.2)

/-- One firing of the game-loop interval.  The interval only exists while
gameStarted and not gameOver.  The bird updater runs first; the pipes
updater runs in the same firing regardless of a ground collision, using the
pre-tick bird for scoring and collision. -/
def tick (r : ℚ) (s : GState) : GState :=
  if s.gameStarted = false ∨ s.gameOver = true then s
  else
    let bres := birdStep s.bird
    let adv := advancePipes r s.nextId s.pipes
    let proc := processPipes s.bird adv.1
    { bird := bres.1
      pipes := proc.1
      gameStarted := s.gameStarted
      gameOver := bres.2 || proc.2.2
      score := s.score + proc.2.1
      nextId := adv.2 }

/-- External inputs driving the core: jump trigger, reset trigger, or one
fixed-step tick carrying that tick's random sample. -/
inductive Input where
  | jumpI : Input
  | resetI : Input
  | tickI : ℚ → Input
deriving DecidableEq

/-- Apply one input to the state. -/
def stepInput (s : GState) : Input → GState
  | Input.jumpI => jump s
  | Input.resetI => resetGame s
  | Input.tickI r => tick r s

/-- Run a trace of inputs from the initial state.  Reachable states are
exactly the values of run. -/
def run (trace : List Input) : GState :=
  trace.foldl stepInput initState

/-- Number of pipes currently in the sequence whose passed flag is set. -/
def countPassed (ps : List Pipe) : ℕ :=
  ps.countP fun p => p.passed

/-!
Concrete scenarios used by counterexamples and witnesses.

The hover trace: start the game, then jump every 41 ticks.  A jump sets the
velocity to -8 and over the following 41 ticks the bird displaces by
41*(-8) + (2/5)*(0+1+...+40) = 0, so the bird returns to y = 250 exactly and
stays within y ∈ [166, 250] in between: it never touches ground or ceiling
and stays inside every pipe gap produced by the sample 10/19 (whose
topHeight is exactly 150, giving a gap from 150 to 300).  Eleven blocks are
enough for the first pipe to be passed (score 1) and then pruned.
-/

/-- One hover block: a jump followed by 41 ticks with random sample 10/19. -/
def hoverBlock : List Input := Input.jumpI :: List.replicate 41 (Input.tickI (10/19))

/-- The full hover trace: start the game, then eleven hover blocks
(462 inputs, 451 ticks). -/
def longTrace : List Input := Input.jumpI :: (List.replicate 11 hoverBlock).flatten

/-- A pipe as produced by the sample 10/19: gap from 150 to 300. -/
def hoverPipe (x : ℚ) (nid : ℕ) (p : Bool) : Pipe := ⟨x, 150, 140, nid, p⟩

/-- A hover-trace state: bird back at (100, 250) with the given velocity. -/
def stage (v : ℚ) (ps : List Pipe) (sc : ℕ) (nid : ℕ) : GState :=
  { bird := ⟨100, 250, v⟩
    pipes := ps
    gameStarted := true
    gameOver := false
    score := sc
    nextId := nid }

/-- Hover-trace state after the starting jump. -/
def stage0 : GState := stage 0 [] 0 0

/-- Hover-trace state after block 1. -/
def stage1 : GState := stage (42/5) [hoverPipe 720 0 false] 0 1

/-- Hover-trace state after block 2. -/
def stage2 : GState := stage (42/5) [hoverPipe 638 0 false] 0 1

/-- Hover-trace state after block 3. -/
def stage3 : GState := stage (42/5) [hoverPipe 556 0 false] 0 1

/-- Hover-trace state after block 4. -/
def stage4 : GState := stage (42/5) [hoverPipe 474 0 false, hoverPipe 776 1 false] 0 2

/-- Hover-trace state after block 5. -/
def stage5 : GState := stage (42/5) [hoverPipe 392 0 false, hoverPipe 694 1 false] 0 2

/-- Hover-trace state after block 6. -/
def stage6 : GState := stage (42/5) [hoverPipe 310 0 false, hoverPipe 612 1 false] 0 2

/-- Hover-trace state after block 7. -/
def stage7 : GState := stage (42/5) [hoverPipe 228 0 false, hoverPipe 530 1 false] 0 2

/-- Hover-trace state after block 8. -/
def stage8 : GState :=
  stage (42/5) [hoverPipe 146 0 false, hoverPipe 448 1 false, hoverPipe 750 2 false] 0 3

/-- Hover-trace state after block 9. -/
def stage9 : GState :=
  stage (42/5) [hoverPipe 64 0 false, hoverPipe 366 1 false, hoverPipe 668 2 false] 0 3

/-- Hover-trace state after block 10: the first pipe has been passed
(score 1) but is still on screen at x = -18. -/
def stage10 : GState :=
  stage (42/5) [hoverPipe (-18) 0 true, hoverPipe 284 1 false, hoverPipe 586 2 false] 1 3

/-- Hover-trace state after block 11: the passed pipe has been pruned while
the score is still 1. -/
def stage11 : GState := stage (42/5) [hoverPipe 202 1 false, hoverPipe 504 2 false] 1 3

/-- A running state one tick away from a ground collision (newY = 417), with
one pipe on screen at x = 700. -/
def groundDemo : GState :=
  { bird := ⟨100, 416, 1⟩
    pipes := [⟨700, 150, 140, 0, false⟩]
    gameStarted := true
    gameOver := false
    score := 0
    nextId := 1 }

/-- A pruned-on-move pipe: at x = -58 it moves to exactly -PIPE_WIDTH. -/
def pipeA : Pipe := ⟨-58, 150, 140, 0, true⟩

/-- A spawn-triggering pipe: at x = 402 it moves to 400 < gameWidth - 300. -/
def pipeB : Pipe := ⟨402, 150, 140, 1, false⟩

/-- A two-pipe field exercising both pruning and spawning in one tick. -/
def demoField : List Pipe := [pipeA, pipeB]

/-- The image of pipeA under one move. -/
def pipeAmoved : Pipe := ⟨-60, 150, 140, 0, true⟩

/-- A running state distinguishing pre-tick from post-tick collision data:
the pre-tick bird (y = 270, bottom 294) fits inside the gap of the pipe at
x = 90, while the post-tick bird (y = 280, bottom 304) would stick out of
it. -/
def staleDemo : GState :=
  { bird := ⟨100, 270, 10⟩
    pipes := [⟨90, 150, 140, 0, false⟩]
    gameStarted := true
    gameOver := false
    score := 0
    nextId := 1 }

/-!
General lemmas about the components of a tick, shared by several claims.
-/

/-- The forEach leaves every pipe at its scorePipe image, in order. -/
lemma processPipes_fst (b : Bird) (ps : List Pipe) :
    (processPipes b ps).1 = ps.map fun q => (scorePipe b q).1 := by
  induction ps with
  | nil => rfl
  | cons p ps ih => simp [processPipes, ih]

/-- The forEach's score delta is the sum of the per-pipe scorePipe deltas. -/
lemma processPipes_delta (b : Bird) (ps : List Pipe) :
    (processPipes b ps).2.1 = (ps.map fun q => (scorePipe b q).2).sum := by
  induction ps with
  | nil => rfl
  | cons p ps ih => simp [processPipes, ih]

/-- The forEach reports a collision exactly when some pipe collides with the
given bird. -/
lemma processPipes_collide (b : Bird) (ps : List Pipe) :
    (processPipes b ps).2.2 = ps.any fun q => pipeCollision b q := by
  induction ps with
  | nil => rfl
  | cons p ps ih => simp [processPipes, ih]

/-- Scoring a single pipe adds its delta to the passed count. -/
lemma countPassed_scorePipe (b : Bird) (p : Pipe) :
    (if (scorePipe b p).1.passed then 1 else 0) =
      (if p.passed then 1 else 0) + (scorePipe b p).2 := by
  unfold scorePipe
  split
  · next h => simp [h.1]
  · simp

/-- The forEach increases the passed count by exactly the score delta. -/
lemma countPassed_processPipes (b : Bird) (ps : List Pipe) :
    countPassed (processPipes b ps).1 = countPassed ps + (processPipes b ps).2.1 := by
  induction ps with
  | nil => rfl
  | cons p ps ih =>
    simp only [processPipes, countPassed, List.countP_cons] at *
    have hp := countPassed_scorePipe b p
    omega

/-- A tick outside the Running phase leaves the state untouched (the
interval is not installed). -/
lemma tick_inactive (r : ℚ) (s : GState)
    (h : s.gameStarted = false ∨ s.gameOver = true) : tick r s = s := by
  unfold tick
  rw [if_pos h]

/-- Shape of a Running tick: bird from birdStep, pipes from the
move-prune-spawn phase followed by the forEach, game over from either the
ground flag or an obstacle collision, score incremented by the forEach
delta. -/
lemma tick_active (r : ℚ) (s : GState)
    (h1 : s.gameStarted = true) (h2 : s.gameOver = false) :
    tick r s =
      { bird := (birdStep s.bird).1
        pipes := (processPipes s.bird (advancePipes r s.nextId s.pipes).1).1
        gameStarted := true
        gameOver := (birdStep s.bird).2 ||
          (processPipes s.bird (advancePipes r s.nextId s.pipes).1).2.2
        score := s.score + (processPipes s.bird (advancePipes r s.nextId s.pipes).1).2.1
        nextId := (advancePipes r s.nextId s.pipes).2 } := by
  unfold tick
  rw [if_neg (by simp [h1, h2])]
  rw [h1]

/-- The move-prune-spawn phase when the spawn condition holds. -/
lemma advancePipes_spawn (r : ℚ) (nid : ℕ) (ps : List Pipe)
    (h : needSpawn (prunePipes (movePipes ps)) = true) :
    advancePipes r nid ps =
      (prunePipes (movePipes ps) ++ [generatePipe r gameWidth nid], nid + 1) := by
  unfold advancePipes
  rw [if_pos h]

/-- The move-prune-spawn phase when the spawn condition fails. -/
lemma advancePipes_noSpawn (r : ℚ) (nid : ℕ) (ps : List Pipe)
    (h : needSpawn (prunePipes (movePipes ps)) = false) :
    advancePipes r nid ps = (prunePipes (movePipes ps), nid) := by
  unfold advancePipes
  rw [if_neg (by simp [h])]

/-- Moving pipes does not change which are passed. -/
lemma countPassed_movePipes (ps : List Pipe) :
    countPassed (movePipes ps) = countPassed ps := by
  unfold movePipes countPassed
  rw [List.countP_map]
  rfl

/-- Pruning can only drop passed pipes, never add them. -/
lemma countPassed_prunePipes (ps : List Pipe) :
    countPassed (prunePipes ps) ≤ countPassed ps := by
  induction ps with
  | nil => simp [prunePipes, countPassed]
  | cons p ps ih =>
    simp only [prunePipes, countPassed, List.filter_cons] at *
    split
    · simp only [List.countP_cons]
      omega
    · simp only [List.countP_cons]
      omega

/-- A freshly spawned pipe is not passed, so the move-prune-spawn phase can
only lower the passed count. -/
lemma countPassed_advancePipes (r : ℚ) (nid : ℕ) (ps : List Pipe) :
    countPassed (advancePipes r nid ps).1 ≤ countPassed ps := by
  have h1 := countPassed_prunePipes (movePipes ps)
  have h2 := countPassed_movePipes ps
  by_cases h : needSpawn (prunePipes (movePipes ps)) = true
  · rw [advancePipes_spawn r nid ps h]
    simp only [countPassed, List.countP_append] at *
    have hg : List.countP (fun p => p.passed) [generatePipe r gameWidth nid] = 0 := by
      simp [generatePipe]
    omega
  · rw [advancePipes_noSpawn r nid ps (by simpa using h)]
    exact le_trans h1 (le_of_eq h2)

/-- The score-versus-passed-count inequality is preserved by every input. -/
lemma inv_stepInput (s : GState) (i : Input)
    (h : countPassed s.pipes ≤ s.score) :
    countPassed (stepInput s i).pipes ≤ (stepInput s i).score := by
  cases i with
  | jumpI =>
    show countPassed (jump s).pipes ≤ (jump s).score
    unfold jump
    split_ifs <;> simpa using h
  | resetI =>
    show countPassed (resetGame s).pipes ≤ (resetGame s).score
    simp [resetGame, countPassed]
  | tickI r =>
    show countPassed (tick r s).pipes ≤ (tick r s).score
    by_cases h1 : s.gameStarted = true
    · by_cases h2 : s.gameOver = false
      · rw [tick_active r s h1 h2]
        have hcnt := countPassed_processPipes s.bird (advancePipes r s.nextId s.pipes).1
        have hadv := countPassed_advancePipes r s.nextId s.pipes
        simp only []
        omega
      · rw [tick_inactive r s (Or.inr (by simpa using h2))]
        exact h
    · rw [tick_inactive r s (Or.inl (by simpa using h1))]
      exact h

/-- The invariant propagates along any trace. -/
lemma inv_foldl (l : List Input) (s : GState)
    (h : countPassed s.pipes ≤ s.score) :
    countPassed (l.foldl stepInput s).pipes ≤ (l.foldl stepInput s).score := by
  induction l generalizing s with
  | nil => simpa using h
  | cons i l ih =>
    simp only [List.foldl_cons]
    exact ih _ (inv_stepInput s i h)

set_option maxRecDepth 10000 in
/-- Evaluation of the starting jump of the hover trace. -/
lemma stageStart : stepInput initState Input.jumpI = stage0 := by decide

set_option maxRecDepth 10000 in
/-- Evaluation of hover block 1. -/
lemma stageStep1 : List.foldl stepInput stage0 hoverBlock = stage1 := by decide

set_option maxRecDepth 10000 in
/-- Evaluation of hover block 2. -/
lemma stageStep2 : List.foldl stepInput stage1 hoverBlock = stage2 := by decide

set_option maxRecDepth 10000 in
/-- Evaluation of hover block 3. -/
lemma stageStep3 : List.foldl stepInput stage2 hoverBlock = stage3 := by decide

set_option maxRecDepth 10000 in
/-- Evaluation of hover block 4. -/
lemma stageStep4 : List.foldl stepInput stage3 hoverBlock = stage4 := by decide

set_option maxRecDepth 10000 in
/-- Evaluation of hover block 5. -/
lemma stageStep5 : List.foldl stepInput stage4 hoverBlock = stage5 := by decide

set_option maxRecDepth 10000 in
/-- Evaluation of hover block 6. -/
lemma stageStep6 : List.foldl stepInput stage5 hoverBlock = stage6 := by decide

set_option maxRecDepth 10000 in
/-- Evaluation of hover block 7. -/
lemma stageStep7 : List.foldl stepInput stage6 hoverBlock = stage7 := by decide

set_option maxRecDepth 10000 in
/-- Evaluation of hover block 8. -/
lemma stageStep8 : List.foldl stepInput stage7 hoverBlock = stage8 := by decide

set_option maxRecDepth 10000 in
/-- Evaluation of hover block 9. -/
lemma stageStep9 : List.foldl stepInput stage8 hoverBlock = stage9 := by decide

set_option maxRecDepth 10000 in
/-- Evaluation of hover block 10: the first pipe is passed here. -/
lemma stageStep10 : List.foldl stepInput stage9 hoverBlock = stage10 := by decide

set_option maxRecDepth 10000 in
/-- Evaluation of hover block 11: the passed pipe is pruned here. -/
lemma stageStep11 : List.foldl stepInput stage10 hoverBlock = stage11 := by decide

/-- The hover trace ends in stage11: score 1, no passed pipe on screen. -/
lemma runLongTrace : run longTrace = stage11 := by
  have hshape : run longTrace = List.foldl stepInput initState
      (Input.jumpI :: (hoverBlock ++ (hoverBlock ++ (hoverBlock ++ (hoverBlock ++
        (hoverBlock ++ (hoverBlock ++ (hoverBlock ++ (hoverBlock ++
        (hoverBlock ++ (hoverBlock ++ (hoverBlock ++ ([] : List Input))))))))))))) := rfl
  rw [hshape, List.foldl_cons, stageStart,
    List.foldl_append, stageStep1, List.foldl_append, stageStep2,
    List.foldl_append, stageStep3, List.foldl_append, stageStep4,
    List.foldl_append, stageStep5, List.foldl_append, stageStep6,
    List.foldl_append, stageStep7, List.foldl_append, stageStep8,
    List.foldl_append, stageStep9, List.foldl_append, stageStep10,
    List.foldl_append, stageStep11, List.foldl_nil]

/-- C1 counterexample: the state reached by the hover trace has score 1 but
no passed pipe left in the sequence (the passed pipe was pruned), so the
claimed equality between score and the passed count of the current
obstacle sequence fails on a reachable state. -/
theorem spec_C1_counterexample :
    ¬ ((run longTrace).score = countPassed (run longTrace).pipes) := by
  rw [runLongTrace]
  decide

/-- C1 amended: in every reachable state the score is at least the number of
currently present passed obstacles (equality can break once a passed
obstacle is pruned), and a tick, in particular one that prunes an
obstacle, never decreases the score. -/
theorem spec_C1_amended :
    (∀ trace : List Input, countPassed (run trace).pipes ≤ (run trace).score) ∧
      (∀ (s : GState) (r : ℚ), s.score ≤ (tick r s).score) := by
  constructor
  · intro trace
    exact inv_foldl trace initState (by simp [initState, countPassed])
  · intro s r
    by_cases h1 : s.gameStarted = true
    · by_cases h2 : s.gameOver = false
      · rw [tick_active r s h1 h2]
        exact Nat.le_add_right _ _
      · rw [tick_inactive r s (Or.inr (by simpa using h2))]
    · rw [tick_inactive r s (Or.inl (by simpa using h1))]

/-- Bird update when the integrated position crosses the ground line: the
previous bird is returned unchanged and the ground flag is raised. -/
lemma birdStep_ground (b : Bird)
    (h : b.y + b.velocity > gameHeight - GROUND_HEIGHT - BIRD_SIZE) :
    birdStep b = (b, true) := by
  unfold birdStep
  rw [if_pos h]

/-- Bird update when the integrated position would be negative: clamp to the
ceiling with zero velocity, no flag. -/
lemma birdStep_ceiling (b : Bird)
    (hg : ¬ b.y + b.velocity > gameHeight - GROUND_HEIGHT - BIRD_SIZE)
    (hc : b.y + b.velocity < 0) :
    birdStep b = ({ b with y := 0, velocity := 0 }, false) := by
  unfold birdStep
  rw [if_neg hg, if_pos hc]

/-- Bird update in the interior: integrate position with the pre-update
velocity and then add gravity to the velocity. -/
lemma birdStep_normal (b : Bird)
    (hg : ¬ b.y + b.velocity > gameHeight - GROUND_HEIGHT - BIRD_SIZE)
    (hc : ¬ b.y + b.velocity < 0) :
    birdStep b =
      ({ b with y := b.y + b.velocity, velocity := b.velocity + GRAVITY }, false) := by
  unfold birdStep
  rw [if_neg hg, if_neg hc]

/-- C2: on a Running tick whose integration hits neither the ground nor the
ceiling, the new velocity is velocityY + GRAVITY (gravity times dt = 1) and
the new position is positionY + velocityY, computed with the velocity held
before gravity is applied on that same step. -/
theorem spec_C2 (s : GState) (r : ℚ)
    (h1 : s.gameStarted = true) (h2 : s.gameOver = false)
    (hg : ¬ s.bird.y + s.bird.velocity > gameHeight - GROUND_HEIGHT - BIRD_SIZE)
    (hc : ¬ s.bird.y + s.bird.velocity < 0) :
    (tick r s).bird.velocity = s.bird.velocity + GRAVITY ∧
      (tick r s).bird.y = s.bird.y + s.bird.velocity := by
  rw [tick_active r s h1 h2, birdStep_normal s.bird hg hc]
  exact ⟨rfl, rfl⟩

/-- C2 witness: the freshly started game, one tick with sample 1/2. -/
theorem spec_C2_witness :
    (tick (1/2) (jump initState)).bird.velocity =
        (jump initState).bird.velocity + GRAVITY ∧
      (tick (1/2) (jump initState)).bird.y =
        (jump initState).bird.y + (jump initState).bird.velocity :=
  spec_C2 (jump initState) (1/2) (by decide) (by decide) (by decide) (by decide)

/-- C3 counterexample: from a Running state with the agent at
(x = 100, y = 250, velocity = 0), a jump followed by one tick yields
velocity -38/5 = -7.6 but position 242, not 1212/5 = 242.4: the claimed
position would require integrating with the post-gravity velocity, which
the code does not do. -/
theorem spec_C3_counterexample :
    (run [Input.jumpI, Input.jumpI, Input.tickI (1/2)]).bird.velocity = -38/5 ∧
      ¬ ((run [Input.jumpI, Input.jumpI, Input.tickI (1/2)]).bird.y = 1212/5) := by
  constructor
  · decide
  · decide

/-- C3 amended: with gravity 0.4 and jump impulse -8, from the agent at
(100, 250, 0) in a Running state, jump then one tick gives velocity -7.6
and position 242 (250 + (-8), the pre-update velocity). -/
theorem spec_C3_amended :
    (run [Input.jumpI, Input.jumpI, Input.tickI (1/2)]).bird.velocity = -38/5 ∧
      (run [Input.jumpI, Input.jumpI, Input.tickI (1/2)]).bird.y = 242 := by
  constructor
  · decide
  · decide

/-- C4: on a Running tick whose integrated position crosses the ground line,
the game transitions to game over and the bird keeps its pre-tick position
and velocity: the integrated values are discarded, not clamped. -/
theorem spec_C4 (s : GState) (r : ℚ)
    (h1 : s.gameStarted = true) (h2 : s.gameOver = false)
    (hg : s.bird.y + s.bird.velocity > gameHeight - GROUND_HEIGHT - BIRD_SIZE) :
    (tick r s).gameOver = true ∧ (tick r s).bird = s.bird := by
  rw [tick_active r s h1 h2, birdStep_ground s.bird hg]
  exact ⟨rfl, rfl⟩

/-- C4 witness: the groundDemo state (newY = 417 > 416). -/
theorem spec_C4_witness :
    (tick (1/2) groundDemo).gameOver = true ∧
      (tick (1/2) groundDemo).bird = groundDemo.bird :=
  spec_C4 groundDemo (1/2) (by decide) (by decide) (by decide)

/-- C5 counterexample: in the groundDemo state the tick ends the game by
ground collision, yet the obstacle sequence is not left unchanged: the pipe
at x = 700 has moved to x = 698 on that same tick. -/
theorem spec_C5_counterexample :
    (tick (1/2) groundDemo).gameOver = true ∧
      (tick (1/2) groundDemo).bird = groundDemo.bird ∧
      ¬ ((tick (1/2) groundDemo).pipes = groundDemo.pipes) := by
  refine ⟨by decide, by decide, by decide⟩

/-- C5 amended: on the tick that ends the game via ground collision, only
the agent is frozen; the obstacle phase of that same tick still runs in
full (movement, pruning, possible spawn, scoring and obstacle collision
checks), exactly as on a tick without ground collision. -/
theorem spec_C5_amended (s : GState) (r : ℚ)
    (h1 : s.gameStarted = true) (h2 : s.gameOver = false)
    (hg : s.bird.y + s.bird.velocity > gameHeight - GROUND_HEIGHT - BIRD_SIZE) :
    (tick r s).bird = s.bird ∧ (tick r s).gameOver = true ∧
      (tick r s).pipes = (processPipes s.bird (advancePipes r s.nextId s.pipes).1).1 ∧
      (tick r s).score = s.score + (processPipes s.bird (advancePipes r s.nextId s.pipes).1).2.1 := by
  rw [tick_active r s h1 h2, birdStep_ground s.bird hg]
  exact ⟨rfl, rfl, rfl, rfl⟩

/-- C5 amended witness: the groundDemo state again; its pipe moves to 698
and the score delta of that tick is 0. -/
theorem spec_C5_amended_witness :
    (tick (1/2) groundDemo).bird = groundDemo.bird ∧
      (tick (1/2) groundDemo).gameOver = true ∧
      (tick (1/2) groundDemo).pipes =
        (processPipes groundDemo.bird
          (advancePipes (1/2) groundDemo.nextId groundDemo.pipes).1).1 ∧
      (tick (1/2) groundDemo).score = groundDemo.score +
        (processPipes groundDemo.bird
          (advancePipes (1/2) groundDemo.nextId groundDemo.pipes).1).2.1 :=
  spec_C5_amended groundDemo (1/2) (by decide) (by decide) (by decide)

/-- C6: the score tracker fires exactly once per obstacle.  On a pipe not
yet passed whose right edge is left of the bird's left edge, scorePipe marks
it passed and contributes exactly 1; a pipe already passed contributes 0 and
stays passed (the guard makes a second firing impossible); a pipe whose
condition has not yet occurred is untouched.  The forEach applies exactly
this per pipe, so the tick's increment is the sum of the per-pipe deltas. -/
theorem spec_C6 (b : Bird) (p : Pipe) (ps : List Pipe) :
    (p.passed = false → b.x > p.x + PIPE_WIDTH →
      scorePipe b p = ({ p with passed := true }, 1)) ∧
    (p.passed = true → scorePipe b p = (p, 0)) ∧
    (p.passed = false → ¬ b.x > p.x + PIPE_WIDTH → scorePipe b p = (p, 0)) ∧
    ((scorePipe b p).1.passed = (p.passed || decide (b.x > p.x + PIPE_WIDTH))) ∧
    (processPipes b ps).1 = ps.map (fun q => (scorePipe b q).1) ∧
    (processPipes b ps).2.1 = (ps.map fun q => (scorePipe b q).2).sum := by
  refine ⟨?_, ?_, ?_, ?_, processPipes_fst b ps, processPipes_delta b ps⟩
  · intro h1 h2
    unfold scorePipe
    rw [if_pos ⟨h1, h2⟩]
  · intro h1
    unfold scorePipe
    rw [if_neg]
    intro hcontra
    rw [h1] at hcontra
    exact absurd hcontra.1 (by simp)
  · intro h1 h2
    unfold scorePipe
    rw [if_neg]
    intro hcontra
    exact h2 hcontra.2
  · unfold scorePipe
    split
    · next h => simp [h.2]
    · next h =>
      rcases Decidable.em (p.passed = true) with hp | hp
      · simp [hp]
      · have hp0 : p.passed = false := by simpa using hp
        have hx : ¬ b.x > p.x + PIPE_WIDTH := fun hx => h ⟨hp0, hx⟩
        simp [hp0, hx]

/-- C6 witness: a pipe at x = 30 right of which the bird at x = 100 already
is: it scores once and flips to passed; the flipped pipe scores 0; a pipe at
x = 100 is not yet cleared and is untouched. -/
theorem spec_C6_witness :
    scorePipe ⟨100, 250, 0⟩ ⟨30, 150, 140, 0, false⟩ = (⟨30, 150, 140, 0, true⟩, 1) ∧
      scorePipe ⟨100, 250, 0⟩ ⟨30, 150, 140, 0, true⟩ = (⟨30, 150, 140, 0, true⟩, 0) ∧
      scorePipe ⟨100, 250, 0⟩ ⟨100, 150, 140, 1, false⟩ = (⟨100, 150, 140, 1, false⟩, 0) ∧
      (processPipes ⟨100, 250, 0⟩ [⟨30, 150, 140, 0, false⟩]).2.1 =
        ([⟨30, 150, 140, 0, false⟩].map
          fun q => (scorePipe (⟨100, 250, 0⟩ : Bird) q).2).sum :=
  ⟨(spec_C6 ⟨100, 250, 0⟩ ⟨30, 150, 140, 0, false⟩ []).1 rfl (by decide),
    (spec_C6 ⟨100, 250, 0⟩ ⟨30, 150, 140, 0, true⟩ []).2.1 rfl,
    (spec_C6 ⟨100, 250, 0⟩ ⟨100, 150, 140, 1, false⟩ []).2.2.1 rfl (by decide),
    (spec_C6 ⟨100, 250, 0⟩ ⟨30, 150, 140, 0, false⟩
      [⟨30, 150, 140, 0, false⟩]).2.2.2.2.2⟩

/-- C7: every spawned pipe satisfies the gap geometry invariant: topHeight +
PIPE_GAP + bottomHeight equals gameHeight - GROUND_HEIGHT (the playable
height), and for a random sample in [0, 1) the topHeight lands in
[50, gameHeight - GROUND_HEIGHT - PIPE_GAP - 50] (50 is the source's
minHeight, the spec's minGapTop). -/
theorem spec_C7 (r x : ℚ) (nid : ℕ) (h0 : 0 ≤ r) (h1 : r < 1) :
    (generatePipe r x nid).topHeight + PIPE_GAP + (generatePipe r x nid).bottomHeight =
      gameHeight - GROUND_HEIGHT ∧
    50 ≤ (generatePipe r x nid).topHeight ∧
    (generatePipe r x nid).topHeight ≤ gameHeight - GROUND_HEIGHT - PIPE_GAP - 50 := by
  refine ⟨?_, ?_, ?_⟩
  · simp only [generatePipe]
    ring
  · simp only [generatePipe, gameHeight, GROUND_HEIGHT, PIPE_GAP]
    nlinarith
  · simp only [generatePipe, gameHeight, GROUND_HEIGHT, PIPE_GAP]
    nlinarith

/-- C7 witness: the sample 1/2 produces topHeight 145, inside [50, 240],
with 145 + 150 + 145 = 440. -/
theorem spec_C7_witness :
    (generatePipe (1/2) gameWidth 7).topHeight + PIPE_GAP +
        (generatePipe (1/2) gameWidth 7).bottomHeight = gameHeight - GROUND_HEIGHT ∧
      50 ≤ (generatePipe (1/2) gameWidth 7).topHeight ∧
      (generatePipe (1/2) gameWidth 7).topHeight ≤
        gameHeight - GROUND_HEIGHT - PIPE_GAP - 50 :=
  spec_C7 (1/2) gameWidth 7 (by norm_num) (by norm_num)

/-- The spawn condition holds exactly when the sequence is empty or its last
(rightmost) pipe sits left of gameWidth - 300. -/
lemma needSpawn_iff (qs : List Pipe) :
    needSpawn qs = true ↔
      qs = [] ∨ ∃ p, qs.getLast? = some p ∧ p.x < gameWidth - 300 := by
  unfold needSpawn
  cases h : qs.getLast? with
  | none =>
    have : qs = [] := List.getLast?_eq_none_iff.mp h
    simp [this]
  | some p =>
    have hne : ¬ qs = [] := by
      intro hq
      rw [hq] at h
      exact absurd h (by simp)
    simp only [decide_eq_true_eq]
    constructor
    · intro hx
      exact Or.inr ⟨p, rfl, hx⟩
    · intro hor
      rcases hor with hq | ⟨p', hp', hx⟩
      · exact absurd hq hne
      · obtain rfl : p = p' := Option.some_inj.mp hp'
        exact hx

/-- C8: the obstacle phase of a tick moves every pipe left by PIPE_SPEED
(dt = 1); it then removes exactly the moved pipes with x ≤ -PIPE_WIDTH; it
appends exactly one fresh pipe, spawned at x = gameWidth with passed =
false, precisely when the pruned sequence is empty or its last pipe is left
of gameWidth - 300; and the pipes of a Running tick are the forEach applied
to that advanced sequence. -/
theorem spec_C8 (r : ℚ) (nid : ℕ) (ps : List Pipe) (s : GState) :
    movePipes ps = (ps.map fun p => { p with x := p.x - PIPE_SPEED }) ∧
    (∀ q, q ∈ prunePipes (movePipes ps) ↔
      q ∈ movePipes ps ∧ ¬ q.x ≤ -PIPE_WIDTH) ∧
    (advancePipes r nid ps).1 =
      (if needSpawn (prunePipes (movePipes ps)) = true
        then prunePipes (movePipes ps) ++ [generatePipe r gameWidth nid]
        else prunePipes (movePipes ps)) ∧
    (needSpawn (prunePipes (movePipes ps)) = true ↔
      prunePipes (movePipes ps) = [] ∨
      ∃ p, (prunePipes (movePipes ps)).getLast? = some p ∧ p.x < gameWidth - 300) ∧
    ((generatePipe r gameWidth nid).x = gameWidth ∧
      (generatePipe r gameWidth nid).passed = false) ∧
    (s.gameStarted = true → s.gameOver = false →
      (tick r s).pipes = (processPipes s.bird (advancePipes r s.nextId s.pipes).1).1) := by
  refine ⟨rfl, ?_, ?_, needSpawn_iff _, ⟨rfl, rfl⟩, ?_⟩
  · intro q
    unfold prunePipes
    rw [List.mem_filter]
    simp [not_le]
  · by_cases h : needSpawn (prunePipes (movePipes ps)) = true
    · rw [advancePipes_spawn r nid ps h, if_pos h]
    · rw [advancePipes_noSpawn r nid ps (by simpa using h),
        if_neg h]
  · intro h1 h2
    rw [tick_active r s h1 h2]

/-- C8 witness: a two-pipe field where the moved first pipe (x = -60) is
pruned and the moved last pipe (x = 400) triggers a spawn. -/
theorem spec_C8_witness :
    movePipes demoField = (demoField.map fun p => { p with x := p.x - PIPE_SPEED }) ∧
      (pipeAmoved ∈ prunePipes (movePipes demoField) ↔
        pipeAmoved ∈ movePipes demoField ∧ ¬ pipeAmoved.x ≤ -PIPE_WIDTH) ∧
      (advancePipes (1/2) 2 demoField).1 =
        (if needSpawn (prunePipes (movePipes demoField)) = true
          then prunePipes (movePipes demoField) ++ [generatePipe (1/2) gameWidth 2]
          else prunePipes (movePipes demoField)) ∧
      (tick (1/2) staleDemo).pipes =
        (processPipes staleDemo.bird
          (advancePipes (1/2) staleDemo.nextId staleDemo.pipes).1).1 :=
  ⟨(spec_C8 (1/2) 2 demoField staleDemo).1,
    (spec_C8 (1/2) 2 demoField staleDemo).2.1 pipeAmoved,
    (spec_C8 (1/2) 2 demoField staleDemo).2.2.1,
    (spec_C8 (1/2) 2 demoField staleDemo).2.2.2.2.2 (by decide) (by decide)⟩

/-- The bird update never produces a negative position. -/
lemma birdStep_y_nonneg (b : Bird) (h : 0 ≤ b.y) : 0 ≤ (birdStep b).1.y := by
  by_cases hg : b.y + b.velocity > gameHeight - GROUND_HEIGHT - BIRD_SIZE
  · rw [birdStep_ground b hg]
    exact h
  · by_cases hc : b.y + b.velocity < 0
    · rw [birdStep_ceiling b hg hc]
    · rw [birdStep_normal b hg hc]
      exact not_lt.mp hc

/-- Non-negativity of the bird position is preserved by every input. -/
lemma y_nonneg_stepInput (s : GState) (i : Input) (h : 0 ≤ s.bird.y) :
    0 ≤ (stepInput s i).bird.y := by
  cases i with
  | jumpI =>
    show 0 ≤ (jump s).bird.y
    unfold jump
    split_ifs <;> exact h
  | resetI =>
    show 0 ≤ (resetGame s).bird.y
    norm_num [resetGame]
  | tickI r =>
    show 0 ≤ (tick r s).bird.y
    by_cases h1 : s.gameStarted = true
    · by_cases h2 : s.gameOver = false
      · rw [tick_active r s h1 h2]
        exact birdStep_y_nonneg s.bird h
      · rw [tick_inactive r s (Or.inr (by simpa using h2))]
        exact h
    · rw [tick_inactive r s (Or.inl (by simpa using h1))]
      exact h

/-- Non-negativity of the bird position propagates along any trace. -/
lemma y_nonneg_foldl (l : List Input) (s : GState) (h : 0 ≤ s.bird.y) :
    0 ≤ (l.foldl stepInput s).bird.y := by
  induction l generalizing s with
  | nil => simpa using h
  | cons i l ih =>
    simp only [List.foldl_cons]
    exact ih _ (y_nonneg_stepInput s i h)

/-- C9: the bird position is non-negative in every reachable state, and a
step whose integrated position would be negative clamps the position to 0
and zeroes the velocity without raising any collision flag: ceiling contact
never ends the game. -/
theorem spec_C9 :
    (∀ trace : List Input, 0 ≤ (run trace).bird.y) ∧
      (∀ b : Bird, b.y + b.velocity < 0 →
        birdStep b = ({ b with y := 0, velocity := 0 }, false)) := by
  constructor
  · intro trace
    exact y_nonneg_foldl trace initState (by norm_num [initState])
  · intro b hc
    have hg : ¬ b.y + b.velocity > gameHeight - GROUND_HEIGHT - BIRD_SIZE := by
      unfold gameHeight GROUND_HEIGHT BIRD_SIZE
      intro hgt
      linarith
    exact birdStep_ceiling b hg hc

/-- C9 witness: a concrete trace keeps the bird at a non-negative height,
and a bird at y = 3 falling with velocity -5 is clamped to the ceiling with
no collision flag. -/
theorem spec_C9_witness :
    0 ≤ (run [Input.jumpI, Input.tickI (1/2)]).bird.y ∧
      birdStep ⟨100, 3, -5⟩ = (⟨100, 0, 0⟩, false) :=
  ⟨spec_C9.1 [Input.jumpI, Input.tickI (1/2)],
    spec_C9.2 ⟨100, 3, -5⟩ (by norm_num)⟩

/-- C10: within a Running tick, scoring and the obstacle collision check are
evaluated against the bird as it was at the start of the tick (s.bird, the
effect-closure value), not against the freshly integrated bird: the score
delta and the collision disjunct are functions of s.bird.  The staleDemo
state separates the two readings: its pre-tick bird fits in the gap of the
pipe moved to x = 88, so the tick reports no game over, even though the
post-tick bird overlaps that same pipe's bottom section. -/
theorem spec_C10 (s : GState) (r : ℚ)
    (h1 : s.gameStarted = true) (h2 : s.gameOver = false) :
    ((tick r s).score =
      s.score + (processPipes s.bird (advancePipes r s.nextId s.pipes).1).2.1) ∧
    ((tick r s).gameOver = ((birdStep s.bird).2 ||
      (advancePipes r s.nextId s.pipes).1.any fun q => pipeCollision s.bird q)) ∧
    ((tick (1/2) staleDemo).gameOver = false ∧
      pipeCollision (tick (1/2) staleDemo).bird ⟨88, 150, 140, 0, false⟩ = true) := by
  rw [tick_active r s h1 h2]
  refine ⟨rfl, ?_, by decide, by decide⟩
  rw [processPipes_collide]

/-- C10 witness: the theorem applied at the staleDemo state itself. -/
theorem spec_C10_witness :
    ((tick (1/2) staleDemo).score = staleDemo.score +
      (processPipes staleDemo.bird
        (advancePipes (1/2) staleDemo.nextId staleDemo.pipes).1).2.1) ∧
    ((tick (1/2) staleDemo).gameOver = ((birdStep staleDemo.bird).2 ||
      (advancePipes (1/2) staleDemo.nextId staleDemo.pipes).1.any
        fun q => pipeCollision staleDemo.bird q)) ∧
    ((tick (1/2) staleDemo).gameOver = false ∧
      pipeCollision (tick (1/2) staleDemo).bird ⟨88, 150, 140, 0, false⟩ = true) :=
  spec_C10 staleDemo (1/2) (by decide) (by decide)

end Flappy
